import Mathlib

/-!
Verification of the sudoers policy-decision pipeline (plugins/sudoers/sudoers.c).

The C source is shallowly embedded: every global the pipeline reads or writes
becomes a field of an explicit state record, every external collaborator
(find_path, sudoers_lookup, check_user, PAM, the rule sources, the OS) becomes
a field of an oracle record, and each C function becomes a Lean function from
state and oracle to result, updated state, and a trace of observable events
(user-visible warnings, audit emissions, privilege transitions, searches).
Allocation primitives (strdup, asprintf, reallocarray) are modelled as always
succeeding; their failure branches in the C are pure error propagation.
-/

namespace Sudoers

/-- Command resolution status, from sudoers.h: FOUND, NOT_FOUND,
NOT_FOUND_DOT (resolved only via the current directory), NOT_FOUND_ERROR. -/
inductive CmndStatus
  | found
  | notFound
  | notFoundDot
  | notFoundError
deriving DecidableEq, Repr

/-- Return value of the plugin entry points: true (allow), false (deny),
-1 (error), -2 (usage error). -/
inductive CheckResult
  | allow
  | deny
  | err
  | usage
deriving DecidableEq, Repr

/-- Privilege Gate states: the argument of set_perms(). -/
inductive Perm
  | initial
  | root
  | sudoersPerm
  | user
  | runas
deriving DecidableEq, Repr

/-- Observable events emitted by the pipeline, in program order.
warn is sudo_warnx (user-visible message); logAudit is log_warningx with
SLOG_AUDIT set; logNoAudit is log_warning/log_warningx without SLOG_AUDIT;
auditFailure is a direct audit_failure() call; lookup marks the
sudoers_lookup() call; search records a find_path() call together with the
Privilege Gate state and the search path in effect; setPerms/restorePerms
record Privilege Gate transitions; unlimitNp/restoreNp record the
RLIMIT_NPROC manipulation; reinitDefaults records sudoers_reinit_defaults. -/
inductive Event
  | warn (msg : String)
  | logAudit (msg : String)
  | logNoAudit (msg : String)
  | auditFailure (msg : String)
  | lookup (pwflag : Nat)
  | search (p : Perm) (path : String)
  | setPerms (p : Perm)
  | restorePerms
  | rewindPerms
  | unlimitNp
  | restoreNp
  | reinitDefaults
  | envInit
  | initDefaultsEv
  | deserializeInfo
  | readNss
  | openParse (src : String)
  | getDefs (src : String)
  | updateDefaultsEv
  | setLoginClassEv
  | storeResult
deriving DecidableEq, Repr

/-- Passwd entry (struct passwd fields the pipeline uses). -/
structure Passwd where
  name : String
  uid : Nat
  gid : Nat
  shell : String
deriving DecidableEq, Repr

/-- Group entry (struct group fields the pipeline uses). -/
structure Group where
  name : String
  gid : Nat
deriving DecidableEq, Repr

/-- The def_* settings of the Defaults store that sudoers.c consults.
umask value ACCESSPERMS (0o777) is the sentinel meaning no sudoers umask. -/
structure Defaults where
  root_sudo : Bool
  closefrom : Int
  closefrom_override : Bool
  runas_allow_unknown_id : Bool
  shell_noargs : Bool
  requiretty : Bool
  setenv : Bool
  env_reset : Bool
  passwd_tries : Int
  user_command_timeouts : Bool
  umask : Nat
  umask_override : Bool
  ignore_dot : Bool
  secure_path : Option String
  runchroot : Option String
  runas_default : String
  preserve_groups : Bool
  intercept : Bool
  iolog_file : Option String
  iolog_dir : Option String
  ignore_iolog_errors : Bool
  log_input : Bool
  log_output : Bool
  restricted_env_file : Option String
  env_file : Option String
  group_plugin : Bool
  admin_flag : Option String
deriving DecidableEq, Repr

/-- ACCESSPERMS: S_IRWXU|S_IRWXG|S_IRWXO = 0o777. -/
def accessPerms : Nat := 0o777

/-- The sudo_mode flag word, as individual flags. -/
structure Mode where
  run : Bool
  edit : Bool
  check : Bool
  validate : Bool
  shellMode : Bool
  loginShell : Bool
  impliedShell : Bool
  preserveEnv : Bool
  preserveGroups : Bool
  policyIntercepted : Bool
deriving DecidableEq, Repr

/-- Fields of struct sudoers_user_context that the pipeline reads or writes. -/
structure UserCtx where
  uid : Nat
  gid : Nat
  closefrom : Int
  timeout : Int
  umask : Nat
  path : String
  envVars : List String
  pw : Passwd
  source : Option String
  cmnd : String
deriving DecidableEq, Repr

/-- Fields of struct sudoers_runas_context that the pipeline reads or writes.
runas_ctx.pw is set by init_vars before any entry point runs and the pipeline
dereferences it unconditionally, so it is modelled as non-optional. -/
structure RunasCtx where
  pw : Passwd
  gr : Option Group
  chroot : Option String
  cwd : Option String
  cmnd : Option String
deriving DecidableEq, Repr

/-- The request-level mutable context threaded through the pipeline:
defaults store, mode word, user and runas contexts, the unknown-id flags set
by set_runaspw/set_runasgr, the SUDO_USER value captured by init_vars, and
the NewArgv global as seen by sudoers_check_common. -/
structure Ctx where
  d : Defaults
  mode : Mode
  u : UserCtx
  runas : RunasCtx
  unknownRunasUid : Bool
  unknownRunasGid : Bool
  prevUser : Option String
  argv : List String
deriving DecidableEq, Repr

/-- Oracle for set_cmnd_path externals: user_is_exempt(), pivot_root(),
set_perms()/restore_perms() success, and find_path() which depends on the
Privilege Gate state (filesystem permissions differ per identity), the
command, the search path and ignore_dot. -/
structure PathOracle where
  userIsExempt : Bool
  pivotOk : Bool
  setPermsOk : Perm → Bool
  restorePermsOk : Bool
  findPath : Perm → String → String → Bool → CmndStatus × Option String

/-- Search path actually handed to find_path by set_cmnd_path:
def_secure_path when set and the user is not exempt, the PATH environment
value otherwise (sudoers.c lines 1084-1097). -/
def effectivePath (o : PathOracle) (d : Defaults) (userPath : String) : String :=
  match d.secure_path with
  | some sp => if o.userIsExempt then userPath else sp
  | none => userPath

/-- Embedding of set_cmnd_path (sudoers.c lines 1079-1147): choose the search
path, pivot into the chroot when given, search under PERM_RUNAS, and when
that search reports NOT_FOUND search again under PERM_USER.  Returns the
resolution status, the resolved path, and the event trace. -/
def set_cmnd_path (o : PathOracle) (d : Defaults) (mode : Mode)
    (userPath : String) (argv : List String) (runchroot : Option String) :
    CmndStatus × Option String × List Event :=
  let cmndIn := if mode.check then argv.getD 1 "" else argv.getD 0 ""
  let path := effectivePath o d userPath
  if runchroot.isSome ∧ ¬ o.pivotOk then
    (CmndStatus.notFoundError, none, [])
  else if ¬ o.setPermsOk Perm.runas then
    (CmndStatus.notFoundError, none, [])
  else
    let r1 := o.findPath Perm.runas cmndIn path d.ignore_dot
    let ev1 := [Event.setPerms Perm.runas, Event.search Perm.runas path,
      Event.restorePerms]
    if ¬ o.restorePermsOk then
      (CmndStatus.notFoundError, none, ev1)
    else if r1.1 = CmndStatus.notFound then
      if ¬ o.setPermsOk Perm.user then
        (CmndStatus.notFoundError, none, ev1)
      else
        let r2 := o.findPath Perm.user cmndIn path d.ignore_dot
        let ev2 := ev1 ++ [Event.setPerms Perm.user,
          Event.search Perm.user path, Event.restorePerms]
        if ¬ o.restorePermsOk then
          (CmndStatus.notFoundError, none, ev2)
        else
          (r2.1, r2.2, ev2)
    else
      (r1.1, r1.2, ev1)

/-- Gate states under which find_path was invoked, in order, extracted from
an event trace. -/
def searchPerms (evs : List Event) : List Perm :=
  evs.filterMap fun e =>
    match e with
    | Event.search p _ => some p
    | _ => none

/-- Search paths handed to find_path, in order, extracted from a trace. -/
def searchPaths (evs : List Event) : List String :=
  evs.filterMap fun e =>
    match e with
    | Event.search _ q => some q
    | _ => none

/-- Tail-recursive worker for sudo_basename: walk the characters, resetting
the accumulator at each slash. -/
def sudoBasenameAux : List Char → List Char → List Char
  | cur, [] => cur.reverse
  | cur, c :: cs =>
    if c = '/' then sudoBasenameAux [] cs else sudoBasenameAux (c :: cur) cs

/-- sudo_basename: the portion of a path after the final slash. -/
def sudoBasename (s : String) : String :=
  String.mk (sudoBasenameAux [] s.toList)

/-- The login-shell argv[0] rewrite of sudoers_check_cmnd lines 711-715:
p points at the last slash of NewArgv[0] (or at its first character when
there is no slash), that character is overwritten with a dash, and
NewArgv[0] is moved to p.  For a path containing a slash this yields a dash
followed by the basename; for a slashless name it overwrites the first
character with the dash. -/
def dashShell (s : String) : String :=
  if s.toList.contains '/' then "-" ++ sudoBasename s
  else "-" ++ String.mk (s.toList.drop 1)

/-- Oracle for set_cmnd externals beyond set_cmnd_path: the per-command
Defaults application (update_defaults with SETDEF_CMND over each rule
source), whether a NOT_FOUND_ERROR came from ENAMETOOLONG, and the
strlcpy_unescape transformation the front-end escaping is reversed with. -/
structure SetCmndOracle where
  po : PathOracle
  cmndDefaults : Defaults → Defaults
  errnoTooLong : Bool
  unescape : String → String

/-- Result of set_cmnd: resolution status, updated defaults, updated mode
word, user_ctx.cmnd, user_ctx.cmnd_args, and the event trace. -/
structure SetCmndOut where
  status : CmndStatus
  d : Defaults
  mode : Mode
  cmnd : String
  cmndArgs : Option String
  events : List Event
deriving Repr

/-- Embedding of set_cmnd (sudoers.c lines 1163-1254): resolve the command
through set_cmnd_path (picking the chroot from runas_ctx.chroot or the
runchroot default unless it is the wildcard), build cmnd_args, fall back to
NewArgv[0] for user_ctx.cmnd, convert a resolved sudoedit into edit mode,
and apply per-command Defaults from every rule source. -/
def set_cmnd (o : SetCmndOracle) (d : Defaults) (mode : Mode) (u : UserCtx)
    (runasChroot : Option String) (argv : List String) : SetCmndOut :=
  let resolve := (mode.run ∨ mode.edit ∨ mode.check) ∧ ¬ mode.edit
  let pathRes :=
    if resolve then
      let runchroot :=
        match runasChroot with
        | some c => some c
        | none =>
          match d.runchroot with
          | some c => if c = "*" then none else some c
          | none => none
      set_cmnd_path o.po d mode u.path argv runchroot
    else
      (CmndStatus.found, none, [])
  if pathRes.1 = CmndStatus.notFoundError then
    { status := CmndStatus.notFoundError, d := d, mode := mode,
      cmnd := u.cmnd, cmndArgs := none,
      events := pathRes.2.2 ++
        (if o.errnoTooLong then [Event.auditFailure "command too long"]
         else []) ++
        [Event.logNoAudit (argv.getD 0 "")] }
  else
    let cmndArgs : Option String :=
      if mode.run ∨ mode.edit ∨ mode.check then
        if mode.check then
          if argv.length > 2 then
            some (" ".intercalate (argv.drop 2))
          else none
        else if argv.length > 1 then
          if (mode.shellMode ∨ mode.loginShell) ∧ mode.run then
            some (" ".intercalate ((argv.drop 1).map o.unescape))
          else
            some (" ".intercalate (argv.drop 1))
        else none
      else none
    let cmnd :=
      match pathRes.2.1 with
      | some c => if mode.check then argv.getD 0 "" else c
      | none => argv.getD 0 ""
    let sudoeditFlip := mode.run ∧ sudoBasename cmnd = "sudoedit"
    let mode1 :=
      if sudoeditFlip then { mode with run := false, edit := true } else mode
    let cmnd1 := if sudoeditFlip then "sudoedit" else cmnd
    let evFlip :=
      if sudoeditFlip then
        [Event.warn "sudoedit does not need to be run via sudo"]
      else []
    { status := pathRes.1, d := o.cmndDefaults d, mode := mode1,
      cmnd := cmnd1, cmndArgs := cmndArgs,
      events := pathRes.2.2 ++ evFlip ++ [Event.updateDefaultsEv] }

/-- Oracle for credential-database lookups used by set_runaspw and
set_runasgr: sudo_strtoid on the digits after the hash mark, and the
passwd/group caches. -/
structure IdOracle where
  strtoid : String → Option Nat
  getpwuid : Nat → Option Passwd
  getpwnam : String → Option Passwd
  getgrgid : Nat → Option Group
  getgrnam : String → Option Group

/-- sudo_fakepwnam: synthesize a passwd entry named by the literal string
given on the command line, with the parsed uid, the invoking user's gid and
the default shell. -/
def sudo_fakepwnam (user : String) (uid : Nat) (gid : Nat) : Passwd :=
  { name := user, uid := uid, gid := gid, shell := "/bin/sh" }

/-- sudo_fakegrnam: synthesize a group entry named by the literal string
with the parsed gid. -/
def sudo_fakegrnam (group : String) (gid : Nat) : Group :=
  { name := group, gid := gid }

/-- Result of set_runaspw: success flag, the unknown_runas_uid global, the
new runas_ctx.pw when one was installed, and the event trace. -/
structure RunasPwOut where
  ok : Bool
  unknownRunasUid : Bool
  pw : Option Passwd
  events : List Event
deriving DecidableEq, Repr

/-- Embedding of set_runaspw (sudoers.c lines 1417-1445): a leading hash
mark means lookup by numeric id; when the id parses but is unknown to the
system a fake entry is synthesized and unknown_runas_uid is set; otherwise
fall back to lookup by name, which logs an audit record and fails when the
name is unknown. -/
def set_runaspw (o : IdOracle) (user : String) (userGid : Nat)
    (quiet : Bool) : RunasPwOut :=
  let byId : Option (Bool × Passwd) :=
    if user.toList.head? = some '#' then
      match o.strtoid (String.mk (user.toList.drop 1)) with
      | some uid =>
        match o.getpwuid uid with
        | some pw => some (false, pw)
        | none => some (true, sudo_fakepwnam user uid userGid)
      | none => none
    else none
  match byId with
  | some (unknown, pw) =>
    { ok := true, unknownRunasUid := unknown, pw := some pw, events := [] }
  | none =>
    match o.getpwnam user with
    | some pw =>
      { ok := true, unknownRunasUid := false, pw := some pw, events := [] }
    | none =>
      { ok := false, unknownRunasUid := false, pw := none,
        events :=
          if quiet then [] else [Event.logAudit ("unknown user " ++ user)] }

/-- Result of set_runasgr: success flag, the unknown_runas_gid global, the
new runas_ctx.gr when one was installed, and the event trace. -/
structure RunasGrOut where
  ok : Bool
  unknownRunasGid : Bool
  gr : Option Group
  events : List Event
deriving DecidableEq, Repr

/-- Embedding of set_runasgr (sudoers.c lines 1451-1479), the group
counterpart of set_runaspw. -/
def set_runasgr (o : IdOracle) (group : String) (quiet : Bool) : RunasGrOut :=
  let byId : Option (Bool × Group) :=
    if group.toList.head? = some '#' then
      match o.strtoid (String.mk (group.toList.drop 1)) with
      | some gid =>
        match o.getgrgid gid with
        | some gr => some (false, gr)
        | none => some (true, sudo_fakegrnam group gid)
      | none => none
    else none
  match byId with
  | some (unknown, gr) =>
    { ok := true, unknownRunasGid := unknown, gr := some gr, events := [] }
  | none =>
    match o.getgrnam group with
    | some gr =>
      { ok := true, unknownRunasGid := false, gr := some gr, events := [] }
    | none =>
      { ok := false, unknownRunasGid := false, gr := none,
        events :=
          if quiet then [] else [Event.logAudit ("unknown group " ++ group)] }

/-- Validation flag word returned by sudoers_lookup: the VALIDATE_SUCCESS
and VALIDATE_ERROR bits consulted by sudoers_check_common. -/
structure Validated where
  success : Bool
  error : Bool
deriving DecidableEq, Repr

/-- Oracle for the external collaborators sudoers_check_common calls:
the set_cmnd externals, sudoers_lookup (its flag word, its in-place update
of cmnd_status, and the match citation recorded by the callback),
tty_present via /dev/tty, check_user_shell, rebuild_env, check_user (the
Authenticator Gate: authenticated / rejected / error), log_denial and
log_failure success, check_user_runchroot and check_user_runcwd
(allowed / denied / error), the SUDO_USER passwd lookup,
create_admin_success_flag, and validate_env_vars. -/
structure CommonOracle where
  sc : SetCmndOracle
  validated : Validated
  lookupStatus : CmndStatus → CmndStatus
  matchSource : Option String
  ttyPresent : Bool
  checkUserShell : Passwd → Bool
  rebuildEnvOk : Bool
  checkUser : Option Bool
  logDenialOk : Bool
  runchrootAllowed : Option Bool
  runcwdAllowed : Option Bool
  prevUserPw : Option Passwd
  logFailureOk : Bool
  adminFlagOk : Bool
  validateEnvVarsOk : Bool

/-- Result of sudoers_check_common: the tri-state return, the event trace,
the final request context, and the final cmnd_status global. -/
structure CommonOut where
  ret : CheckResult
  events : List Event
  ctx : Ctx
  cmndStatus : CmndStatus

/-- Message printed when root runs sudo with root_sudo disabled. -/
def rootNotAllowedMsg : String :=
  "sudoers specifies that root is not allowed to sudo"

/-- Hint printed when the command was found only in the current directory. -/
def dotHintMsg (cmnd : String) : String :=
  "ignoring " ++ cmnd ++ " found in dot, use sudo ./" ++ cmnd ++
    " if this is the command you wish to run"

/-- The cd built-in hint condition of sudoers_check_common lines 558-559:
the command begins with cd followed by end of string or a blank. -/
def cdBuiltinHint (cmnd : String) : Bool :=
  match cmnd.toList with
  | 'c' :: 'd' :: rest =>
    rest.isEmpty || rest.head? == some ' ' || rest.head? == some '\t'
  | _ => false

/-- The head of sudoers_check_common (sudoers.c lines 359-364): set the
preserve_groups default when -P was given, then call set_cmnd.  Split out
so theorems can name its result. -/
def checkCommonSetCmnd (o : CommonOracle) (c : Ctx) : SetCmndOut :=
  set_cmnd o.sc
    (if c.mode.preserveGroups then { c.d with preserve_groups := true }
     else c.d)
    c.mode c.u c.runas.chroot c.argv

/-- Embedding of sudoers_check_common (sudoers.c lines 350-601): find the
command and apply per-command Defaults, gate root_sudo and closefrom, run
the sudoers lookup, record the citation, enforce the unknown-id flags,
shell_noargs, requiretty and the runas shell, rebuild the environment,
authenticate, check chroot and cwd overrides, rebind the SUDO_USER
identity, convert a non-success lookup into a logged denial, create the
admin flag file, reject commands found only via the current directory or
not found at all, and enforce timeout and environment privileges. -/
def sudoers_check_common (o : CommonOracle) (pwflag : Nat) (c : Ctx) :
    CommonOut :=
  let sc := checkCommonSetCmnd o c
  let c0 : Ctx := { c with
    d := sc.d,
    mode := sc.mode,
    u := { c.u with cmnd := sc.cmnd } }
  if sc.status = CmndStatus.notFoundError then
    ⟨CheckResult.err, sc.events, c0, sc.status⟩
  else if c.u.uid = 0 ∧ sc.d.root_sudo = false then
    ⟨CheckResult.deny, sc.events ++ [Event.warn rootNotAllowedMsg], c0,
      sc.status⟩
  else
    let cfOverride := c.u.closefrom ≥ 0 ∧ c.u.closefrom ≠ sc.d.closefrom
    if cfOverride ∧ sc.d.closefrom_override = false then
      ⟨CheckResult.deny, sc.events ++
        [Event.logAudit "user not allowed to override closefrom limit",
         Event.warn "you are not permitted to use the -C option"], c0,
        sc.status⟩
    else
      let d1 :=
        if cfOverride then { sc.d with closefrom := c.u.closefrom } else sc.d
      let cst := o.lookupStatus sc.status
      let ev1 := sc.events ++ [Event.lookup pwflag]
      let c1 := { c0 with d := d1 }
      if o.validated.error = true then
        ⟨CheckResult.err, ev1, c1, cst⟩
      else
        let src :=
          match o.matchSource with
          | some s => some s
          | none => c.u.source
        let runasCmnd :=
          match c.runas.cmnd with
          | some rc => some rc
          | none => some sc.cmnd
        let c2 := { c1 with
          u := { c1.u with source := src },
          runas := { c1.runas with cmnd := runasCmnd } }
        if c.unknownRunasUid = true ∧ d1.runas_allow_unknown_id = false then
          ⟨CheckResult.err,
            ev1 ++ [Event.logAudit ("unknown user " ++ c.runas.pw.name)],
            c2, cst⟩
        else if c.runas.gr.isSome = true ∧ c.unknownRunasGid = true ∧
            d1.runas_allow_unknown_id = false then
          ⟨CheckResult.err,
            ev1 ++ [Event.logAudit ("unknown group " ++
              ((c.runas.gr.map Group.name).getD ""))], c2, cst⟩
        else if sc.mode.impliedShell = true ∧ d1.shell_noargs = false then
          ⟨CheckResult.usage, ev1, c2, cst⟩
        else if d1.requiretty = true ∧ o.ttyPresent = false then
          ⟨CheckResult.deny, ev1 ++ [Event.logAudit "no tty",
            Event.warn "sorry, you must have a tty to run sudo"], c2, cst⟩
        else if (sc.mode.run = true ∨ sc.mode.check = true) ∧
            o.checkUserShell c.runas.pw = false then
          ⟨CheckResult.deny, ev1 ++
            [Event.logAudit ("invalid shell for user " ++
              c.runas.pw.name ++ ": " ++ c.runas.pw.shell)], c2, cst⟩
        else
          let d2 :=
            if sc.mode.edit = true ∨
                (sc.mode.preserveEnv = true ∧ d1.setenv = true) then
              { d1 with env_reset := false }
            else d1
          let c3 := { c2 with d := d2 }
          if o.rebuildEnvOk = false then
            ⟨CheckResult.deny, ev1, c3, cst⟩
          else
            match o.checkUser with
            | none => ⟨CheckResult.err, ev1, c3, cst⟩
            | some false =>
              if o.validated.success = false ∧ o.logDenialOk = false then
                ⟨CheckResult.err, ev1, c3, cst⟩
              else
                ⟨CheckResult.deny, ev1, c3, cst⟩
            | some true =>
              match o.runchrootAllowed with
              | none => ⟨CheckResult.err, ev1, c3, cst⟩
              | some false =>
                ⟨CheckResult.deny, ev1 ++
                  [Event.logAudit "user not allowed to change root directory",
                   Event.warn ("you are not permitted to use the -R option with "
                     ++ sc.cmnd)], c3, cst⟩
              | some true =>
                match o.runcwdAllowed with
                | none => ⟨CheckResult.err, ev1, c3, cst⟩
                | some false =>
                  ⟨CheckResult.deny, ev1 ++
                    [Event.logAudit "user not allowed to change directory",
                     Event.warn ("you are not permitted to use the -D option with "
                       ++ sc.cmnd)], c3, cst⟩
                | some true =>
                  let c4 :=
                    if (sc.mode.run = true ∨ sc.mode.edit = true) ∧
                        c.prevUser ≠ none ∧ c.u.uid = 0 ∧
                        c.prevUser ≠ some "root" then
                      match o.prevUserPw with
                      | some pw => { c3 with u := { c3.u with pw := pw } }
                      | none => c3
                    else c3
                  if o.validated.success = false then
                    if o.logFailureOk = false then
                      ⟨CheckResult.err, ev1, c4, cst⟩
                    else
                      ⟨CheckResult.deny, ev1, c4, cst⟩
                  else if o.adminFlagOk = false then
                    ⟨CheckResult.err, ev1, c4, cst⟩
                  else if cst = CmndStatus.notFoundDot then
                    ⟨CheckResult.deny, ev1 ++
                      [Event.auditFailure "command in current directory",
                       Event.warn (dotHintMsg sc.cmnd)], c4, cst⟩
                  else if cst = CmndStatus.notFound then
                    if sc.mode.check = true then
                      ⟨CheckResult.deny, ev1 ++
                        [Event.auditFailure ("command not found: " ++
                           c.argv.getD 1 ""),
                         Event.warn ("command not found: " ++
                           c.argv.getD 1 "")], c4, cst⟩
                    else
                      ⟨CheckResult.deny, ev1 ++
                        [Event.auditFailure ("command not found: " ++ sc.cmnd),
                         Event.warn ("command not found: " ++ sc.cmnd)] ++
                        (if cdBuiltinHint sc.cmnd then
                          [Event.warn "cd is a shell built-in command, it cannot be run directly",
                           Event.warn "the -s option may be used to run a privileged shell",
                           Event.warn "the -D option may be used to run a command in a specific directory"]
                         else []), c4, cst⟩
                  else if d2.user_command_timeouts = false ∧
                      c.u.timeout > 0 then
                    ⟨CheckResult.deny, ev1 ++
                      [Event.logAudit "user not allowed to set a command timeout",
                       Event.warn "sorry, you are not allowed set a command timeout"],
                      c4, cst⟩
                  else if sc.mode.run = true ∧ d2.setenv = false then
                    if sc.mode.preserveEnv = true then
                      ⟨CheckResult.deny, ev1 ++
                        [Event.logAudit "user not allowed to preserve the environment",
                         Event.warn "sorry, you are not allowed to preserve the environment"],
                        c4, cst⟩
                    else if o.validateEnvVarsOk = false then
                      ⟨CheckResult.deny, ev1, c4, cst⟩
                    else
                      ⟨CheckResult.allow, ev1, c4, cst⟩
                  else
                    ⟨CheckResult.allow, ev1, c4, cst⟩

/-- A resource limit value pair (rlim_cur, rlim_max); none is RLIM_INFINITY. -/
structure RLimit where
  cur : Option Nat
  max : Option Nat
deriving DecidableEq, Repr

/-- RLIM_INFINITY for both fields. -/
def rlimInfinity : RLimit := { cur := none, max := none }

/-- Oracle for the getrlimit/setrlimit syscalls on RLIMIT_NPROC. -/
structure RlimOracle where
  getrlimitOk : Bool
  setrlimitOk : RLimit → Bool

/-- Embedding of unlimit_nproc (sudoers.c lines 114-131): save the current
RLIMIT_NPROC into the nproclimit global (left stale if getrlimit fails),
raise the limit to infinity, and on failure fall back to the saved hard
limit.  Returns the new process limit and the new nproclimit global. -/
def unlimit_nproc (o : RlimOracle) (rl nproclimit : RLimit) :
    RLimit × RLimit :=
  let saved := if o.getrlimitOk then rl else nproclimit
  let rl1 :=
    if o.setrlimitOk rlimInfinity then rlimInfinity
    else
      let hard : RLimit := { cur := saved.max, max := saved.max }
      if o.setrlimitOk hard then hard else rl
  (rl1, saved)

/-- Embedding of restore_nproc (sudoers.c lines 136-147): set RLIMIT_NPROC
back to the saved nproclimit global. -/
def restore_nproc (o : RlimOracle) (rl saved : RLimit) : RLimit :=
  if o.setrlimitOk saved then saved else rl

/-- The argv reshaping for login shells (sudoers_check_cmnd lines 708-729):
rewrite argv[0] through the dash rewrite, and when the result is exactly
-bash directly followed by -c, shift the vector up by one slot (using the
spare slot allocated for it) and insert --login between them. -/
def reshapeLoginArgv (argv : List String) : List String :=
  match argv with
  | [] => []
  | a0 :: rest =>
    let p := dashShell a0
    match rest with
    | r1 :: rest2 =>
      if p = "-bash" ∧ r1 = "-c" then p :: "--login" :: r1 :: rest2
      else p :: r1 :: rest2
    | [] => [p]

/-- The process-wide mutable state an entry point starts from: the current
RLIMIT_NPROC, the nproclimit global, the need_reinit static, the request
context, the NewArgv global, and whether cmnd_saved/saved_argv are set. -/
structure ProcState where
  rlimitNproc : RLimit
  nproclimit : RLimit
  needReinit : Bool
  ctx : Ctx
  newArgv : List String
  savedArgvSet : Bool

/-- Oracle for sudoers_check_cmnd externals beyond sudoers_check_common:
the rlimit syscalls, the MODE_INTERCEPT_MASK projection (defined in
sudoers.h, outside this file), sudoers_reinit_defaults (returning the
re-initialized Defaults store, or none on failure), set_perms(PERM_INITIAL),
the I/O-log machinery, the env-file readers, insert_env_vars, find_editor,
sudoers_policy_store_result and rewind_perms. -/
structure CmndOracle where
  co : CommonOracle
  rlim : RlimOracle
  interceptMask : Mode → Mode
  reinitDefaults : Defaults → Option Defaults
  setPermsInitialOk : Bool
  remoteIologs : Bool
  iologEnabled : Bool
  iologPath : Option String
  readRestrictedEnvOk : Bool
  readEnvFileOk : Bool
  insertEnvVarsOk : Bool
  findEditor : Option (List String)
  editorEvents : List Event
  storeResultOk : Bool
  rewindPermsOk : Bool

/-- Result of an entry point: the tri-state return, the event trace, the
final process state, and the umask value passed to the front-end through
sudoers_policy_store_result. -/
structure CmndOut where
  ret : CheckResult
  events : List Event
  st : ProcState
  cmndUmask : Nat

/-- The umask computation of sudoers_check_cmnd lines 697-706: cmnd_umask
starts at ACCESSPERMS; when a sudoers umask is set it is used, with the
invoking user's umask bits OR-ed in unless umask_override is set. -/
def cmndUmaskCalc (d : Defaults) (userUmask : Nat) : Nat :=
  if d.umask ≠ accessPerms then
    if d.umask_override then d.umask else d.umask ||| userUmask
  else accessPerms

/-- The done label of sudoers_check_cmnd (sudoers.c lines 828-855): store
the result unless erroring (a store failure turns the result into an
error), rewind privileges (a rewind failure likewise), and restore
RLIMIT_NPROC.  Split out so theorems can reason about every exit path. -/
def checkCmndDone (o : CmndOracle) (ret : CheckResult) (evs : List Event)
    (stF : ProcState) (um : Nat) : CmndOut :=
  let r1 :=
    if ret = CheckResult.err then (ret, evs)
    else
      let evs' := evs ++ [Event.storeResult]
      if o.storeResultOk then (ret, evs') else (CheckResult.err, evs')
  let r2 :=
    let e := r1.2 ++ [Event.rewindPerms]
    if o.rewindPermsOk then (r1.1, e) else (CheckResult.err, e)
  let rlF := restore_nproc o.rlim stF.rlimitNproc stF.nproclimit
  { ret := r2.1, events := r2.2 ++ [Event.restoreNp],
    st := { stF with rlimitNproc := rlF }, cmndUmask := um }

/-- Result of the body of sudoers_check_cmnd (lines 643-819, between the
initial privilege push and the done label): tri-state result, events, the
final request context, the final NewArgv global, the cmnd_saved flag, and
the umask to hand to the front-end. -/
structure BodyOut where
  ret : CheckResult
  events : List Event
  ctx : Ctx
  newArgv : List String
  savedArgvSet : Bool
  cmndUmask : Nat

/-- The allowed-command tail of sudoers_check_cmnd (sudoers.c lines
680-819), run once the common pipeline allowed the request (cc is the
request context it produced): expand the I/O-log path (an expansion
failure either errors out or disables I/O logging, per
ignore_iolog_errors), compute the umask, reshape the login-shell argv,
read the restricted and global env files (failures only warn), insert user
environment variables, resolve the editor for edit mode (replacing
NewArgv), and latch the saved command and argv. -/
def checkCmndAllowTail (o : CmndOracle) (newArgv0 : List String)
    (cc : Ctx) (savedArgvSet : Bool) (ev3 : List Event) : BodyOut :=
  let d := cc.d
  let iologAttempt := o.remoteIologs = false ∧ o.iologEnabled = true ∧
    d.iolog_file.isSome = true ∧ d.iolog_dir.isSome = true
  if iologAttempt ∧ o.iologPath = none ∧
      d.ignore_iolog_errors = false then
    { ret := CheckResult.err, events := ev3, ctx := cc,
      newArgv := newArgv0, savedArgvSet := savedArgvSet,
      cmndUmask := accessPerms }
  else
    let d2 :=
      if iologAttempt ∧ o.iologPath = none then
        { d with log_input := false, log_output := false }
      else d
    let um := cmndUmaskCalc d2 cc.u.umask
    let newArgv1 :=
      if cc.mode.loginShell = true then reshapeLoginArgv newArgv0
      else newArgv0
    let ctx2 := { cc with d := d2, argv := newArgv1 }
    let evEnv :=
      (if d2.restricted_env_file.isSome = true ∧
          o.readRestrictedEnvOk = false then
        [Event.warn (d2.restricted_env_file.getD "")]
       else []) ++
      (if d2.env_file.isSome = true ∧ o.readEnvFileOk = false then
        [Event.warn (d2.env_file.getD "")]
       else [])
    let ev4 := ev3 ++ evEnv
    if o.insertEnvVarsOk = false then
      { ret := CheckResult.err,
        events := ev4 ++
          [Event.warn "error setting user-specified environment variables"],
        ctx := ctx2, newArgv := newArgv1,
        savedArgvSet := savedArgvSet, cmndUmask := um }
    else if cc.mode.edit = true then
      match o.findEditor with
      | none =>
        { ret := CheckResult.err, events := ev4 ++ o.editorEvents,
          ctx := ctx2, newArgv := newArgv1,
          savedArgvSet := savedArgvSet, cmndUmask := um }
      | some eargv =>
        { ret := CheckResult.allow, events := ev4,
          ctx := { ctx2 with argv := eargv }, newArgv := eargv,
          savedArgvSet := (if savedArgvSet = false then true
            else savedArgvSet),
          cmndUmask := um }
    else
      { ret := CheckResult.allow, events := ev4, ctx := ctx2,
        newArgv := newArgv1,
        savedArgvSet := (if savedArgvSet = false then true
          else savedArgvSet),
        cmndUmask := um }

/-- The head of the body of sudoers_check_cmnd: the initial privilege push,
the argv copy with the login-shell substitution, and the common pipeline;
an allow continues in checkCmndAllowTail. -/
def checkCmndBody (o : CmndOracle) (argv envAdd newArgvPrev : List String)
    (c : Ctx) (savedArgvSet : Bool) : BodyOut :=
  if o.setPermsInitialOk = false then
    { ret := CheckResult.deny, events := [Event.setPerms Perm.initial],
      ctx := c, newArgv := newArgvPrev, savedArgvSet := savedArgvSet,
      cmndUmask := accessPerms }
  else
    let u1 :=
      if envAdd ≠ [] then { c.u with envVars := envAdd } else c.u
    let newArgv0 :=
      if c.mode.loginShell = true then c.runas.pw.shell :: argv.drop 1
      else argv
    let ctx1 := { c with u := u1, argv := newArgv0 }
    let com := sudoers_check_common o.co 0 ctx1
    let ev3 := Event.setPerms Perm.initial :: com.events
    if com.ret ≠ CheckResult.allow then
      { ret := com.ret, events := ev3, ctx := com.ctx, newArgv := newArgv0,
        savedArgvSet := savedArgvSet, cmndUmask := accessPerms }
    else
      checkCmndAllowTail o newArgv0 com.ctx savedArgvSet ev3

/-- Embedding of sudoers_check_cmnd (sudoers.c lines 610-856): reject an
empty command line outright; re-initialize defaults when called again
(masking mode flags for intercepted commands); raise RLIMIT_NPROC; run the
body (checkCmndBody); and pass every body outcome through the done label
(checkCmndDone), which stores the result, rewinds privileges, and restores
RLIMIT_NPROC. -/
def sudoers_check_cmnd (o : CmndOracle) (argv : List String)
    (envAdd : List String) (st : ProcState) : CmndOut :=
  if argv = [] then
    { ret := CheckResult.err, events := [Event.warn "no command specified"],
      st := st, cmndUmask := accessPerms }
  else
    let reinit := st.needReinit
    let mode0 := st.ctx.mode
    let mode1 :=
      if reinit ∧ mode0.run = true ∧ st.ctx.d.intercept = true then
        { mode0 with policyIntercepted := true }
      else mode0
    let mode2 :=
      if reinit ∧ mode1.policyIntercepted = true then o.interceptMask mode1
      else mode1
    let evRe := if reinit then [Event.reinitDefaults] else []
    if reinit ∧ o.reinitDefaults st.ctx.d = none then
      { ret := CheckResult.err, events := evRe,
        st := { st with ctx := { st.ctx with mode := mode2 } },
        cmndUmask := accessPerms }
    else
      let d0 :=
        if reinit then (o.reinitDefaults st.ctx.d).getD st.ctx.d
        else st.ctx.d
      let lim := unlimit_nproc o.rlim st.rlimitNproc st.nproclimit
      let b := checkCmndBody o argv envAdd st.newArgv
        { st.ctx with mode := mode2, d := d0 } st.savedArgvSet
      checkCmndDone o b.ret (evRe ++ Event.unlimitNp :: b.events)
        { st with
          needReinit := true,
          rlimitNproc := lim.1,
          nproclimit := lim.2,
          ctx := b.ctx,
          newArgv := b.newArgv,
          savedArgvSet := b.savedArgvSet }
        b.cmndUmask

/-- Password-check mode constants I_VERIFYPW and I_LISTPW as passed by
sudoers_validate_user and sudoers_list (distinct nonzero indices). -/
def verifyPwFlag : Nat := 1

/-- The I_LISTPW defaults index. -/
def listPwFlag : Nat := 2

/-- The done label shared by sudoers_validate_user (lines 888-903) and
sudoers_list (lines 953-972): rewind privileges (failure turns the result
into an error) and restore RLIMIT_NPROC. -/
def validateListDone (rewindOk : Bool) (rl : RlimOracle) (ret : CheckResult)
    (evs : List Event) (stF : ProcState) : CmndOut :=
  let retF := if rewindOk then ret else CheckResult.err
  let rlF := restore_nproc rl stF.rlimitNproc stF.nproclimit
  { ret := retF, events := evs ++ [Event.rewindPerms, Event.restoreNp],
    st := { stF with rlimitNproc := rlF }, cmndUmask := accessPerms }

/-- Oracle for sudoers_validate_user externals. -/
structure ValidateOracle where
  co : CommonOracle
  rlim : RlimOracle
  setPermsInitialOk : Bool
  rewindPermsOk : Bool

/-- Embedding of sudoers_validate_user (sudoers.c lines 863-904): raise
RLIMIT_NPROC, push the initial privilege state, set NewArgv to the
validate placeholder, run the common pipeline with I_VERIFYPW, and tear
down (rewind privileges, restore RLIMIT_NPROC) on every exit path. -/
def sudoers_validate_user (o : ValidateOracle) (st : ProcState) : CmndOut :=
  let doneTail := validateListDone o.rewindPermsOk o.rlim
  let lim := unlimit_nproc o.rlim st.rlimitNproc st.nproclimit
  let st1 := { st with rlimitNproc := lim.1, nproclimit := lim.2 }
  let ev1 := [Event.unlimitNp, Event.setPerms Perm.initial]
  if o.setPermsInitialOk = false then
    doneTail CheckResult.err ev1 st1
  else
    let newArgv := ["validate"]
    let ctx1 := { st1.ctx with argv := newArgv }
    let st2 := { st1 with ctx := ctx1, newArgv := newArgv }
    let com := sudoers_check_common o.co verifyPwFlag ctx1
    doneTail com.ret (ev1 ++ com.events) { st2 with ctx := com.ctx }

/-- Oracle for sudoers_list externals: the -U list-user passwd lookup and
the display_cmnd/display_privs result (as a function of verbose). -/
structure ListOracle where
  co : CommonOracle
  rlim : RlimOracle
  setPermsInitialOk : Bool
  rewindPermsOk : Bool
  listUserPw : String → Option Passwd
  displayResult : Bool → CheckResult

/-- Embedding of sudoers_list (sudoers.c lines 911-973): raise
RLIMIT_NPROC, push the initial privilege state, resolve the -U list user
(unknown name is an error), build NewArgv as the list placeholder followed
by the caller argv, run the common pipeline with I_LISTPW, then display the
command check or the privilege listing; tear down on every exit path. -/
def sudoers_list (o : ListOracle) (argv : List String)
    (listUser : Option String) (verbose : Bool) (st : ProcState) : CmndOut :=
  let doneTail := validateListDone o.rewindPermsOk o.rlim
  let lim := unlimit_nproc o.rlim st.rlimitNproc st.nproclimit
  let st1 := { st with rlimitNproc := lim.1, nproclimit := lim.2 }
  let ev1 := [Event.unlimitNp, Event.setPerms Perm.initial]
  if o.setPermsInitialOk = false then
    doneTail CheckResult.err ev1 st1
  else if listUser.isSome = true ∧
      (o.listUserPw (listUser.getD "")).isNone = true then
    doneTail CheckResult.err
      (ev1 ++ [Event.warn ("unknown user " ++ listUser.getD "")]) st1
  else
    let newArgv := "list" :: argv
    let ctx1 := { st1.ctx with argv := newArgv }
    let st2 := { st1 with ctx := ctx1, newArgv := newArgv }
    let com := sudoers_check_common o.co listPwFlag ctx1
    let st3 := { st2 with ctx := com.ctx }
    if com.ret ≠ CheckResult.allow then
      doneTail com.ret (ev1 ++ com.events) st3
    else
      doneTail (o.displayResult verbose) (ev1 ++ com.events) st3

/-- State relevant to sudoers_init: the rule-source list global snl, the
static result of the first initialization, and the request context. -/
structure InitState where
  snl : Option (List String)
  storedRet : Int
  ctx : Ctx
deriving DecidableEq, Repr

/-- Oracle for sudoers_init externals: env_init, init_defaults (the factory
Defaults store, none on failure), sudoers_policy_deserialize_info (the mode
word, none when MODE_ERROR is set), init_vars, sudo_read_nss,
set_perms(PERM_ROOT), the front-end initial Defaults application, the
open/parse and getdefs outcome per rule source, each source's Defaults
contribution, set_loginclass and restore_perms. -/
structure InitOracle where
  envInitOk : Bool
  initDefaults : Option Defaults
  deserialized : Option Mode
  initVarsOk : Bool
  readNss : List String
  setPermsRootOk : Bool
  applyInitialDefaults : Defaults → Option Defaults
  openParseOk : String → Bool
  getDefsOk : String → Bool
  sourceDefaults : String → Defaults → Defaults
  setLoginClassOk : Bool
  restorePermsOk : Bool

/-- Embedding of sudoers_init (sudoers.c lines 194-286).  The snl global is
the only-initialize-once guard: when it is already set the stored static
result is returned with no further work.  Otherwise: initialize the
environment layer and the Defaults store, deserialize the front-end info,
fill in the user context, read the rule-source order, switch to ROOT, apply
front-end defaults, open and parse every source (dropping ones that fail,
erroring if all drop), set the login class (the only step that makes the
stored result true), and restore privileges. -/
def sudoers_init (o : InitOracle) (st : InitState) :
    Int × InitState × List Event :=
  if st.snl.isSome = true then
    (st.storedRet, st, [])
  else
    let ev0 := [Event.envInit]
    if o.envInitOk = false then (-1, st, ev0)
    else
      let ev1 := ev0 ++ [Event.initDefaultsEv]
      match o.initDefaults with
      | none =>
        (-1, st, ev1 ++ [Event.warn "unable to initialize sudoers default values"])
      | some dInit =>
        let ev2 := ev1 ++ [Event.deserializeInfo]
        match o.deserialized with
        | none => (-1, { st with ctx := { st.ctx with d := dInit } }, ev2)
        | some mode1 =>
          let ctx1 := { st.ctx with d := dInit, mode := mode1 }
          if o.initVarsOk = false then (-1, { st with ctx := ctx1 }, ev2)
          else
            let snl1 := o.readNss
            let st1 := { st with ctx := ctx1, snl := some snl1 }
            let ev3 := ev2 ++ [Event.readNss, Event.setPerms Perm.root]
            if o.setPermsRootOk = false then (-1, st1, ev3)
            else
              let cleanup := fun (ret : Int) (stC : InitState)
                  (evs : List Event) =>
                let retF := if o.restorePermsOk then ret else -1
                (retF, { stC with storedRet := retF },
                  evs ++ [Event.restorePerms])
              let ev4 := ev3 ++ [Event.updateDefaultsEv]
              match o.applyInitialDefaults dInit with
              | none => cleanup st.storedRet st1 ev4
              | some d1 =>
                let step := fun (acc : Defaults × List Event) (s : String) =>
                  if o.openParseOk s then
                    if o.getDefsOk s then
                      (o.sourceDefaults s acc.1,
                        acc.2 ++ [Event.openParse s, Event.getDefs s,
                          Event.updateDefaultsEv])
                    else
                      (acc.1, acc.2 ++ [Event.openParse s,
                        Event.logNoAudit ("unable to get defaults from " ++ s)])
                  else (acc.1, acc.2 ++ [Event.openParse s])
                let loopRes := snl1.foldl step (d1, [])
                let kept := snl1.filter o.openParseOk
                let st2 := { st1 with
                  snl := some kept,
                  ctx := { ctx1 with d := loopRes.1 } }
                let ev5 := ev4 ++ loopRes.2
                if kept.length = 0 then
                  cleanup st.storedRet st2
                    (ev5 ++ [Event.warn "no valid sudoers sources found, quitting"])
                else
                  let ev6 := ev5 ++ [Event.setLoginClassEv]
                  if o.setLoginClassOk then cleanup 1 st2 ev6
                  else cleanup st.storedRet st2 ev6

/-- A concrete Defaults store with stock sudoers values, used by witnesses. -/
def stockDefaults : Defaults :=
  { root_sudo := true, closefrom := 3, closefrom_override := false,
    runas_allow_unknown_id := false, shell_noargs := false,
    requiretty := false, setenv := false, env_reset := true,
    passwd_tries := 3, user_command_timeouts := false, umask := 0o022,
    umask_override := false, ignore_dot := true, secure_path := none,
    runchroot := none, runas_default := "root", preserve_groups := false,
    intercept := false, iolog_file := none, iolog_dir := none,
    ignore_iolog_errors := false, log_input := false, log_output := false,
    restricted_env_file := none, env_file := none, group_plugin := false,
    admin_flag := none }

/-- A plain run-mode flag word. -/
def runMode : Mode :=
  { run := true, edit := false, check := false, validate := false,
    shellMode := false, loginShell := false, impliedShell := false,
    preserveEnv := false, preserveGroups := false,
    policyIntercepted := false }

/-- The root passwd entry used by witnesses. -/
def rootPw : Passwd := { name := "root", uid := 0, gid := 0, shell := "/bin/bash" }

/-- An unprivileged invoking user used by witnesses. -/
def alicePw : Passwd :=
  { name := "alice", uid := 1000, gid := 1000, shell := "/bin/bash" }

/-- A concrete invoking-user context used by witnesses. -/
def stockUser : UserCtx :=
  { uid := 1000, gid := 1000, closefrom := -1, timeout := 0, umask := 0o022,
    path := "/usr/bin:/bin", envVars := [], pw := alicePw, source := none,
    cmnd := "" }

/-- A concrete runas context targeting root, used by witnesses. -/
def stockRunas : RunasCtx :=
  { pw := rootPw, gr := none, chroot := none, cwd := none, cmnd := none }

/-- A find-everything filesystem oracle used by witnesses. -/
def stockPathOracle : PathOracle :=
  { userIsExempt := false, pivotOk := true, setPermsOk := fun _ => true,
    restorePermsOk := true,
    findPath := fun _ _ _ _ => (CmndStatus.found, some "/bin/ls") }

/-- A set_cmnd oracle whose externals all succeed. -/
def stockSetCmnd : SetCmndOracle :=
  { po := stockPathOracle, cmndDefaults := id, errnoTooLong := false,
    unescape := id }

/-- A common-pipeline oracle in which the lookup succeeds and every
collaborator reports success. -/
def stockCommon : CommonOracle :=
  { sc := stockSetCmnd, validated := { success := true, error := false },
    lookupStatus := fun s => s, matchSource := some "/etc/sudoers:1:1",
    ttyPresent := true, checkUserShell := fun _ => true,
    rebuildEnvOk := true, checkUser := some true, logDenialOk := true,
    runchrootAllowed := some true, runcwdAllowed := some true,
    prevUserPw := none, logFailureOk := true, adminFlagOk := true,
    validateEnvVarsOk := true }

/-- A concrete request context: alice runs /bin/ls as root. -/
def stockCtx : Ctx :=
  { d := stockDefaults, mode := runMode, u := stockUser,
    runas := stockRunas, unknownRunasUid := false, unknownRunasGid := false,
    prevUser := none, argv := ["/bin/ls"] }

/-- An rlimit oracle in which both syscalls succeed. -/
def stockRlim : RlimOracle :=
  { getrlimitOk := true, setrlimitOk := fun _ => true }

/-- A check-entry-point oracle whose externals all succeed, with I/O
logging disabled. -/
def stockCmndOracle : CmndOracle :=
  { co := stockCommon, rlim := stockRlim, interceptMask := id,
    reinitDefaults := fun d => some d, setPermsInitialOk := true,
    remoteIologs := false, iologEnabled := false, iologPath := none,
    readRestrictedEnvOk := true, readEnvFileOk := true,
    insertEnvVarsOk := true, findEditor := none, editorEvents := [],
    storeResultOk := true, rewindPermsOk := true }

/-- A concrete process state at first entry. -/
def stockState : ProcState :=
  { rlimitNproc := { cur := some 4096, max := some 8192 },
    nproclimit := { cur := some 1, max := some 1 }, needReinit := false,
    ctx := stockCtx, newArgv := [], savedArgvSet := false }

/-- Recognizer for audit-sink emissions: a log_warningx with SLOG_AUDIT or
a direct audit_failure call. -/
def isAuditEvent : Event → Bool
  | Event.logAudit _ => true
  | Event.auditFailure _ => true
  | _ => false

/-- Recognizer for the sudoers_lookup call marker. -/
def isLookupEvent : Event → Bool
  | Event.lookup _ => true
  | _ => false

/-- A trace that emits nothing to the audit sink. -/
def auditFree (evs : List Event) : Bool :=
  evs.all fun e => ! isAuditEvent e

/-- A trace that never invokes sudoers_lookup. -/
def lookupFree (evs : List Event) : Bool :=
  evs.all fun e => ! isLookupEvent e

theorem auditFree_append (a b : List Event) :
    auditFree (a ++ b) = (auditFree a && auditFree b) := by
  simp [auditFree, List.all_append]

theorem lookupFree_append (a b : List Event) :
    lookupFree (a ++ b) = (lookupFree a && lookupFree b) := by
  simp [lookupFree, List.all_append]

theorem set_cmnd_path_auditFree (o : PathOracle) (d : Defaults)
    (mode : Mode) (up : String) (argv : List String) (rc : Option String) :
    auditFree (set_cmnd_path o d mode up argv rc).2.2 = true := by
  simp only [set_cmnd_path]
  split_ifs <;> rfl

theorem set_cmnd_path_lookupFree (o : PathOracle) (d : Defaults)
    (mode : Mode) (up : String) (argv : List String) (rc : Option String) :
    lookupFree (set_cmnd_path o d mode up argv rc).2.2 = true := by
  simp only [set_cmnd_path]
  split_ifs <;> rfl

theorem set_cmnd_events_clean (o : SetCmndOracle) (d : Defaults)
    (mode : Mode) (u : UserCtx) (rc : Option String) (argv : List String)
    (h : (set_cmnd o d mode u rc argv).status ≠ CmndStatus.notFoundError) :
    auditFree (set_cmnd o d mode u rc argv).events = true ∧
    lookupFree (set_cmnd o d mode u rc argv).events = true := by
  simp only [set_cmnd] at h ⊢
  split_ifs at h ⊢ <;>
    first
      | exact absurd rfl h
      | exact ⟨by first
                | rfl
                | (simp only [auditFree_append, set_cmnd_path_auditFree,
                    Bool.true_and]; rfl),
               by first
                | rfl
                | (simp only [lookupFree_append, set_cmnd_path_lookupFree,
                    Bool.true_and]; rfl)⟩

/-- C10: a sudoers_check_cmnd call with argc 0 fails immediately with the
no-command message, before defaults reinitialization, before the
RLIMIT_NPROC raise, before any privilege transition, and without touching
the stored argv copy or any other process state. -/
theorem check_cmnd_rejects_empty_argv (o : CmndOracle)
    (envAdd : List String) (st : ProcState) :
    sudoers_check_cmnd o [] envAdd st =
      { ret := CheckResult.err,
        events := [Event.warn "no command specified"],
        st := st, cmndUmask := accessPerms } := by
  unfold sudoers_check_cmnd
  simp

/-- C9: sudoers_init initializes at most once per process: whenever the
rule-source list snl is already set, it returns the static result stored by
the first call, emits no events (no configuration re-read, no re-parse, no
defaults re-application), and leaves all state untouched. -/
theorem sudoers_init_runs_once (o : InitOracle) (st : InitState)
    (h : st.snl.isSome = true) :
    sudoers_init o st = (st.storedRet, st, []) := by
  unfold sudoers_init
  rw [if_pos h]

/-- An init oracle whose externals all succeed, used by witnesses. -/
def stockInitOracle : InitOracle :=
  { envInitOk := true, initDefaults := some stockDefaults,
    deserialized := some runMode, initVarsOk := true,
    readNss := ["/etc/sudoers"], setPermsRootOk := true,
    applyInitialDefaults := fun d => some d, openParseOk := fun _ => true,
    getDefsOk := fun _ => true, sourceDefaults := fun _ d => d,
    setLoginClassOk := true, restorePermsOk := true }

/-- An already-initialized state: snl is set and the first call stored 1. -/
def initializedState : InitState :=
  { snl := some ["/etc/sudoers"], storedRet := 1, ctx := stockCtx }

/-- Witness: a second sudoers_init call on an initialized state returns the
stored result and does nothing. -/
theorem sudoers_init_runs_once_witness :
    sudoers_init stockInitOracle initializedState =
      (1, initializedState, []) :=
  sudoers_init_runs_once stockInitOracle initializedState rfl

/-- C2: when the invoking uid is 0 and the root_sudo setting is off (as it
stands after command resolution applied per-command defaults),
sudoers_check_common returns a denial immediately after command resolution:
the result is false, the root-not-allowed message is printed, the sudoers
lookup is never invoked, and nothing is emitted to the audit sink. -/
theorem root_sudo_off_immediate_deny (o : CommonOracle) (pwflag : Nat)
    (c : Ctx)
    (hst : (checkCommonSetCmnd o c).status ≠ CmndStatus.notFoundError)
    (huid : c.u.uid = 0)
    (hroot : (checkCommonSetCmnd o c).d.root_sudo = false) :
    (sudoers_check_common o pwflag c).ret = CheckResult.deny ∧
    (sudoers_check_common o pwflag c).events =
      (checkCommonSetCmnd o c).events ++ [Event.warn rootNotAllowedMsg] ∧
    auditFree (sudoers_check_common o pwflag c).events = true ∧
    lookupFree (sudoers_check_common o pwflag c).events = true := by
  have hclean : auditFree (checkCommonSetCmnd o c).events = true ∧
      lookupFree (checkCommonSetCmnd o c).events = true := by
    unfold checkCommonSetCmnd at hst ⊢
    exact set_cmnd_events_clean o.sc _ c.mode c.u c.runas.chroot c.argv hst
  simp only [sudoers_check_common]
  rw [if_neg hst, if_pos (And.intro huid hroot)]
  refine ⟨rfl, rfl, ?_, ?_⟩
  · rw [auditFree_append, hclean.1]; rfl
  · rw [lookupFree_append, hclean.2]; rfl

/-- A context in which root itself invokes sudo while root_sudo is off. -/
def rootDenyCtx : Ctx :=
  { stockCtx with
    u := { stockUser with uid := 0, pw := rootPw },
    d := { stockDefaults with root_sudo := false } }

/-- Witness: root running /bin/ls with root_sudo off is denied with the
root message, without a lookup and without audit emissions. -/
theorem root_sudo_off_immediate_deny_witness :
    (sudoers_check_common stockCommon 0 rootDenyCtx).ret =
      CheckResult.deny ∧
    (sudoers_check_common stockCommon 0 rootDenyCtx).events =
      (checkCommonSetCmnd stockCommon rootDenyCtx).events ++
        [Event.warn rootNotAllowedMsg] ∧
    auditFree (sudoers_check_common stockCommon 0 rootDenyCtx).events =
      true ∧
    lookupFree (sudoers_check_common stockCommon 0 rootDenyCtx).events =
      true :=
  root_sudo_off_immediate_deny stockCommon 0 rootDenyCtx (by decide) rfl
    (by decide)

/-- C1: a command resolved only via the current directory (NOT_FOUND_DOT
after the lookup) is denied even though every other stage succeeded and the
lookup set VALIDATE_SUCCESS; the audit sink records the
command-in-current-directory failure and the user is shown the hint to run
the command as sudo ./cmnd. -/
theorem dot_command_denied_despite_success (o : CommonOracle)
    (pwflag : Nat) (c : Ctx)
    (h1 : (checkCommonSetCmnd o c).status ≠ CmndStatus.notFoundError)
    (h2 : ¬(c.u.uid = 0 ∧ (checkCommonSetCmnd o c).d.root_sudo = false))
    (h3 : ¬(c.u.closefrom ≥ 0 ∧
      c.u.closefrom ≠ (checkCommonSetCmnd o c).d.closefrom))
    (h4 : o.validated.error = false)
    (h5 : o.validated.success = true)
    (h6 : ¬(c.unknownRunasUid = true ∧
      (checkCommonSetCmnd o c).d.runas_allow_unknown_id = false))
    (h7 : ¬(c.runas.gr.isSome = true ∧ c.unknownRunasGid = true ∧
      (checkCommonSetCmnd o c).d.runas_allow_unknown_id = false))
    (h8 : ¬((checkCommonSetCmnd o c).mode.impliedShell = true ∧
      (checkCommonSetCmnd o c).d.shell_noargs = false))
    (h9 : ¬((checkCommonSetCmnd o c).d.requiretty = true ∧
      o.ttyPresent = false))
    (h10 : ¬(((checkCommonSetCmnd o c).mode.run = true ∨
      (checkCommonSetCmnd o c).mode.check = true) ∧
      o.checkUserShell c.runas.pw = false))
    (h11 : o.rebuildEnvOk = true)
    (h12 : o.checkUser = some true)
    (h13 : o.runchrootAllowed = some true)
    (h14 : o.runcwdAllowed = some true)
    (h15 : o.adminFlagOk = true)
    (hdot : o.lookupStatus (checkCommonSetCmnd o c).status =
      CmndStatus.notFoundDot) :
    (sudoers_check_common o pwflag c).ret = CheckResult.deny ∧
    Event.auditFailure "command in current directory" ∈
      (sudoers_check_common o pwflag c).events ∧
    Event.warn (dotHintMsg (checkCommonSetCmnd o c).cmnd) ∈
      (sudoers_check_common o pwflag c).events := by
  simp only [sudoers_check_common]
  rw [if_neg h1, if_neg h2, if_neg (fun hh => h3 hh.1), if_neg h3,
    if_neg (by simp [h4]), if_neg h6, if_neg h7, if_neg h8,
    if_neg (by simp [h9] : ¬((checkCommonSetCmnd o c).d.requiretty = true ∧
      o.ttyPresent = false)), if_neg h10, if_neg (by simp [h11])]
  simp only [h12, h13, h14]
  rw [if_neg (by simp [h5]), if_neg (by simp [h15]), if_pos hdot]
  refine ⟨rfl, ?_, ?_⟩ <;> simp

/-- The stock oracle with a lookup that reclassifies the command as found
only via the current directory. -/
def dotOracle : CommonOracle :=
  { stockCommon with lookupStatus := fun _ => CmndStatus.notFoundDot }

/-- Witness: the dot scenario on the stock context is denied with the audit
record and the sudo ./cmnd hint. -/
theorem dot_command_denied_despite_success_witness :
    (sudoers_check_common dotOracle 0 stockCtx).ret = CheckResult.deny ∧
    Event.auditFailure "command in current directory" ∈
      (sudoers_check_common dotOracle 0 stockCtx).events ∧
    Event.warn (dotHintMsg (checkCommonSetCmnd dotOracle stockCtx).cmnd) ∈
      (sudoers_check_common dotOracle 0 stockCtx).events :=
  dot_command_denied_despite_success dotOracle 0 stockCtx (by decide)
    (by decide) (by decide) rfl rfl (by decide) (by decide) (by decide)
    (by decide) (by decide) rfl rfl rfl rfl rfl rfl

/-- C3: a runas user (or group) given as a hash-number with an id unknown
to the system makes set_runaspw (set_runasgr) synthesize a fake entry and
set the unknown-uid (unknown-gid) flag; sudoers_check_common then rejects
the request, logging unknown user to the audit sink when the unknown-uid
flag is set, and logging unknown group when only the unknown-gid flag is
set for a request with a runas group, unless runas_allow_unknown_id is set
in the defaults in force after per-command defaults were applied, in which
case the request passes both gates and can complete with an allow. -/
theorem unknown_runas_id_gate (io : IdOracle) (user group : String)
    (uid gid ugid : Nat) (quiet : Bool)
    (hu : user.toList.head? = some '#')
    (hup : io.strtoid (String.mk (user.toList.drop 1)) = some uid)
    (hun : io.getpwuid uid = none)
    (hg : group.toList.head? = some '#')
    (hgp : io.strtoid (String.mk (group.toList.drop 1)) = some gid)
    (hgn : io.getgrgid gid = none)
    (o : CommonOracle) (pwflag : Nat) (c : Ctx)
    (h1 : (checkCommonSetCmnd o c).status ≠ CmndStatus.notFoundError)
    (h2 : ¬(c.u.uid = 0 ∧ (checkCommonSetCmnd o c).d.root_sudo = false))
    (h3 : ¬(c.u.closefrom ≥ 0 ∧
      c.u.closefrom ≠ (checkCommonSetCmnd o c).d.closefrom))
    (h4 : o.validated.error = false)
    (h5 : o.validated.success = true)
    (h8 : ¬((checkCommonSetCmnd o c).mode.impliedShell = true ∧
      (checkCommonSetCmnd o c).d.shell_noargs = false))
    (h9 : ¬((checkCommonSetCmnd o c).d.requiretty = true ∧
      o.ttyPresent = false))
    (h10 : ¬(((checkCommonSetCmnd o c).mode.run = true ∨
      (checkCommonSetCmnd o c).mode.check = true) ∧
      o.checkUserShell c.runas.pw = false))
    (h11 : o.rebuildEnvOk = true)
    (h12 : o.checkUser = some true)
    (h13 : o.runchrootAllowed = some true)
    (h14 : o.runcwdAllowed = some true)
    (h15 : o.adminFlagOk = true)
    (hfound : o.lookupStatus (checkCommonSetCmnd o c).status =
      CmndStatus.found)
    (htmo : c.u.timeout ≤ 0)
    (hpe : (checkCommonSetCmnd o c).mode.preserveEnv = false)
    (hvev : o.validateEnvVarsOk = true) :
    set_runaspw io user ugid quiet =
      { ok := true, unknownRunasUid := true,
        pw := some (sudo_fakepwnam user uid ugid), events := [] } ∧
    set_runasgr io group quiet =
      { ok := true, unknownRunasGid := true,
        gr := some (sudo_fakegrnam group gid), events := [] } ∧
    (c.unknownRunasUid = true →
      (checkCommonSetCmnd o c).d.runas_allow_unknown_id = false →
      (sudoers_check_common o pwflag c).ret = CheckResult.err ∧
      Event.logAudit ("unknown user " ++ c.runas.pw.name) ∈
        (sudoers_check_common o pwflag c).events) ∧
    (c.unknownRunasUid = false → c.runas.gr.isSome = true →
      c.unknownRunasGid = true →
      (checkCommonSetCmnd o c).d.runas_allow_unknown_id = false →
      (sudoers_check_common o pwflag c).ret = CheckResult.err ∧
      Event.logAudit ("unknown group " ++
          ((c.runas.gr.map Group.name).getD "")) ∈
        (sudoers_check_common o pwflag c).events) ∧
    ((checkCommonSetCmnd o c).d.runas_allow_unknown_id = true →
      (sudoers_check_common o pwflag c).ret = CheckResult.allow) := by
  refine ⟨?_, ?_, ?_, ?_, ?_⟩
  · simp only [set_runaspw, if_pos hu, hup, hun]
  · simp only [set_runasgr, if_pos hg, hgp, hgn]
  · intro hflag hoff
    simp only [sudoers_check_common]
    rw [if_neg h1, if_neg h2, if_neg (fun hh => h3 hh.1), if_neg h3,
      if_neg (by simp [h4]), if_pos (And.intro hflag hoff)]
    exact ⟨rfl, by simp⟩
  · intro huid0 hgr hgflag hoff
    simp only [sudoers_check_common]
    rw [if_neg h1, if_neg h2, if_neg (fun hh => h3 hh.1), if_neg h3,
      if_neg (by simp [h4]), if_neg (by simp [huid0]),
      if_pos (And.intro hgr (And.intro hgflag hoff))]
    exact ⟨rfl, by simp⟩
  · intro hon
    simp only [sudoers_check_common]
    rw [if_neg h1, if_neg h2, if_neg (fun hh => h3 hh.1), if_neg h3,
      if_neg (by simp [h4]),
      if_neg (fun hh => by rw [hon] at hh; simp at hh),
      if_neg (fun hh => by rw [hon] at hh; simp at hh),
      if_neg h8,
      if_neg (by simp [h9] :
        ¬((checkCommonSetCmnd o c).d.requiretty = true ∧
          o.ttyPresent = false)),
      if_neg h10, if_neg (by simp [h11])]
    simp only [h12, h13, h14]
    rw [if_neg (by simp [h5]), if_neg (by simp [h15]),
      if_neg (by simp [hfound]), if_neg (by simp [hfound])]
    split_ifs <;> try rfl
    all_goals first
      | (rename_i hbad; exact absurd hbad.2 (by omega))
      | (rename_i hbad; rw [hpe] at hbad; exact absurd hbad (by simp))
      | (rename_i hbad; rw [hvev] at hbad; exact absurd hbad (by simp))

/-- A credential oracle in which every id and name is unknown to the
system and hash-number ids parse to their numeric value for the two
witnesses below. -/
def unknownIdOracle : IdOracle :=
  { strtoid := fun s => if s = "4242" then some 4242 else some 99,
    getpwuid := fun _ => none, getpwnam := fun _ => none,
    getgrgid := fun _ => none, getgrnam := fun _ => none }

/-- The stock context with runas user given as an unknown hash-number. -/
def unknownRunasCtx : Ctx :=
  { stockCtx with
    unknownRunasUid := true,
    runas := { stockRunas with pw := sudo_fakepwnam "#4242" 4242 1000 } }

/-- The stock context with only the runas group given as an unknown
hash-number. -/
def unknownGidCtx : Ctx :=
  { stockCtx with
    unknownRunasGid := true,
    runas := { stockRunas with gr := some (sudo_fakegrnam "#99" 99) } }

/-- Witness: runas user hash-4242 unknown to the system yields the fake
entry with the unknown-uid flag and, with runas_allow_unknown_id off, the
request errors out logging unknown user hash-4242 to the audit sink; a
request whose only unknown id is the runas group hash-99 gets the fake
group entry with the unknown-gid flag and errors out logging unknown
group hash-99. -/
theorem unknown_runas_id_gate_witness :
    set_runaspw unknownIdOracle "#4242" 1000 false =
      { ok := true, unknownRunasUid := true,
        pw := some (sudo_fakepwnam "#4242" 4242 1000), events := [] } ∧
    set_runasgr unknownIdOracle "#99" false =
      { ok := true, unknownRunasGid := true,
        gr := some (sudo_fakegrnam "#99" 99), events := [] } ∧
    (sudoers_check_common stockCommon 0 unknownRunasCtx).ret =
      CheckResult.err ∧
    Event.logAudit ("unknown user " ++ "#4242") ∈
      (sudoers_check_common stockCommon 0 unknownRunasCtx).events ∧
    (sudoers_check_common stockCommon 0 unknownGidCtx).ret =
      CheckResult.err ∧
    Event.logAudit ("unknown group " ++ "#99") ∈
      (sudoers_check_common stockCommon 0 unknownGidCtx).events := by
  have h := unknown_runas_id_gate unknownIdOracle "#4242" "#99" 4242 99 1000
    false (by decide) (by decide) (by decide) (by decide) (by decide)
    (by decide) stockCommon 0 unknownRunasCtx (by decide) (by decide)
    (by decide) (by decide) (by decide) (by decide) (by decide) (by decide)
    (by decide) (by decide) (by decide) (by decide) (by decide) (by decide)
    (by decide) (by decide) (by decide)
  have hg := unknown_runas_id_gate unknownIdOracle "#4242" "#99" 4242 99
    1000 false (by decide) (by decide) (by decide) (by decide) (by decide)
    (by decide) stockCommon 0 unknownGidCtx (by decide) (by decide)
    (by decide) (by decide) (by decide) (by decide) (by decide) (by decide)
    (by decide) (by decide) (by decide) (by decide) (by decide) (by decide)
    (by decide) (by decide) (by decide)
  refine ⟨h.1, h.2.1, (h.2.2.1 (by decide) (by decide)).1,
    (h.2.2.1 (by decide) (by decide)).2,
    (hg.2.2.2.1 (by decide) (by decide) (by decide) (by decide)).1, ?_⟩
  exact (hg.2.2.2.1 (by decide) (by decide) (by decide) (by decide)).2

/-- C4 counterexample: in a run where every Gate transition succeeds and
the command is found by the first search, set_cmnd_path performs exactly
one search and its Gate state is RUNAS; the claim that the first PATH
search happens with the Gate in the ROOT state is false on the code, which
pushes PERM_RUNAS (sudoers.c line 1105). -/
theorem set_cmnd_path_first_search_not_root :
    searchPerms (set_cmnd_path stockPathOracle stockDefaults runMode
      "/usr/bin:/bin" ["/bin/ls"] none).2.2 = [Perm.runas] ∧
    (searchPerms (set_cmnd_path stockPathOracle stockDefaults runMode
      "/usr/bin:/bin" ["/bin/ls"] none).2.2).head? ≠ some Perm.root := by
  decide

/-- C4 (amended): set_cmnd_path performs the first PATH search with the
Privilege Gate in the RUNAS (target user) state, and exactly when that
search returns NOT_FOUND it searches again with the Gate in the USER
(invoking user) state. -/
theorem set_cmnd_path_runas_then_user (o : PathOracle) (d : Defaults)
    (mode : Mode) (up : String) (argv : List String) (rc : Option String)
    (hpiv : ¬(rc.isSome ∧ ¬ o.pivotOk))
    (hp1 : o.setPermsOk Perm.runas = true)
    (hrp : o.restorePermsOk = true)
    (hp2 : o.setPermsOk Perm.user = true) :
    searchPerms (set_cmnd_path o d mode up argv rc).2.2 =
      (if (o.findPath Perm.runas
            (if mode.check then argv.getD 1 "" else argv.getD 0 "")
            (effectivePath o d up) d.ignore_dot).1 = CmndStatus.notFound
       then [Perm.runas, Perm.user] else [Perm.runas]) := by
  simp only [set_cmnd_path]
  rw [if_neg hpiv, if_neg (by simp [hp1]), if_neg (by simp [hrp])]
  by_cases hnf : (o.findPath Perm.runas
      (if mode.check then argv.getD 1 "" else argv.getD 0 "")
      (effectivePath o d up) d.ignore_dot).1 = CmndStatus.notFound
  · rw [if_pos hnf, if_neg (by simp [hp2]), if_neg (by simp [hrp]),
      if_pos hnf]
    rfl
  · rw [if_neg hnf, if_neg hnf]
    rfl

/-- Witness for the amended C4: in the stock run the search-perm trace is
exactly the single RUNAS search. -/
theorem set_cmnd_path_runas_then_user_witness :
    searchPerms (set_cmnd_path stockPathOracle stockDefaults runMode
      "/usr/bin:/bin" ["/bin/ls"] none).2.2 = [Perm.runas] :=
  (set_cmnd_path_runas_then_user stockPathOracle stockDefaults runMode
    "/usr/bin:/bin" ["/bin/ls"] none (by decide) (by decide) (by decide)
    (by decide)).trans (by decide)

/-- C5: every find_path invocation issued by set_cmnd_path searches exactly
the secure_path setting when it is set and the user is not exempt, and the
PATH environment value otherwise — and under successful Gate transitions at
least one such search happens, so the searched-path trace is one or two
copies of that single path. -/
theorem secure_path_exclusive (o : PathOracle) (d : Defaults) (mode : Mode)
    (up : String) (argv : List String) (rc : Option String)
    (hpiv : ¬(rc.isSome ∧ ¬ o.pivotOk))
    (hp1 : o.setPermsOk Perm.runas = true)
    (hrp : o.restorePermsOk = true)
    (hp2 : o.setPermsOk Perm.user = true) :
    searchPaths (set_cmnd_path o d mode up argv rc).2.2 =
      (if (o.findPath Perm.runas
            (if mode.check then argv.getD 1 "" else argv.getD 0 "")
            (effectivePath o d up) d.ignore_dot).1 = CmndStatus.notFound
       then [(match d.secure_path with
              | some sp => if o.userIsExempt then up else sp
              | none => up),
             (match d.secure_path with
              | some sp => if o.userIsExempt then up else sp
              | none => up)]
       else [(match d.secure_path with
              | some sp => if o.userIsExempt then up else sp
              | none => up)]) := by
  simp only [set_cmnd_path]
  rw [if_neg hpiv, if_neg (by simp [hp1]), if_neg (by simp [hrp])]
  by_cases hnf : (o.findPath Perm.runas
      (if mode.check then argv.getD 1 "" else argv.getD 0 "")
      (effectivePath o d up) d.ignore_dot).1 = CmndStatus.notFound
  · rw [if_pos hnf, if_neg (by simp [hp2]), if_neg (by simp [hrp]),
      if_pos hnf]
    rfl
  · rw [if_neg hnf, if_neg hnf]
    rfl

/-- The stock filesystem oracle except that the invoking user's PATH search
would find the command; paired below with a secure_path setting to show
PATH is not consulted. -/
def securePathDefaults : Defaults :=
  { stockDefaults with secure_path := some "/sbin:/bin" }

/-- Witness: with secure_path set to /sbin:/bin and a non-exempt user, the
only path ever searched is /sbin:/bin, not the user PATH value. -/
theorem secure_path_exclusive_witness :
    searchPaths (set_cmnd_path stockPathOracle securePathDefaults runMode
      "/usr/bin:/bin" ["/bin/ls"] none).2.2 = ["/sbin:/bin"] :=
  (secure_path_exclusive stockPathOracle securePathDefaults runMode
    "/usr/bin:/bin" ["/bin/ls"] none (by decide) (by decide) (by decide)
    (by decide)).trans (by decide)

/-- C8: every request entry point (check, validate, list) leaves
RLIMIT_NPROC as it found it: the limit is raised at the start and set back
to the saved value on every exit path, so provided the kernel accepts the
getrlimit call and the restoring setrlimit of the saved value, the limit
observed after the entry point returns equals the value on entry. -/
theorem checkCmndDone_rlimitNproc (o : CmndOracle) (ret : CheckResult)
    (evs : List Event) (stF : ProcState) (um : Nat) :
    (checkCmndDone o ret evs stF um).st.rlimitNproc =
      restore_nproc o.rlim stF.rlimitNproc stF.nproclimit := rfl

theorem validateListDone_rlimitNproc (rwOk : Bool) (rl : RlimOracle)
    (ret : CheckResult) (evs : List Event) (stF : ProcState) :
    (validateListDone rwOk rl ret evs stF).st.rlimitNproc =
      restore_nproc rl stF.rlimitNproc stF.nproclimit := rfl

theorem restore_nproc_saved (r : RlimOracle) (x np : RLimit)
    (hs : r.setrlimitOk np = true) : restore_nproc r x np = np := by
  simp [restore_nproc, hs]

theorem nproc_restored_on_every_exit (o1 : CmndOracle)
    (argv envAdd : List String) (st1 : ProcState) (o2 : ValidateOracle)
    (st2 : ProcState) (o3 : ListOracle) (argv3 : List String)
    (lu : Option String) (v : Bool) (st3 : ProcState)
    (hg1 : o1.rlim.getrlimitOk = true)
    (hs1 : o1.rlim.setrlimitOk st1.rlimitNproc = true)
    (hg2 : o2.rlim.getrlimitOk = true)
    (hs2 : o2.rlim.setrlimitOk st2.rlimitNproc = true)
    (hg3 : o3.rlim.getrlimitOk = true)
    (hs3 : o3.rlim.setrlimitOk st3.rlimitNproc = true) :
    (sudoers_check_cmnd o1 argv envAdd st1).st.rlimitNproc =
      st1.rlimitNproc ∧
    (sudoers_validate_user o2 st2).st.rlimitNproc = st2.rlimitNproc ∧
    (sudoers_list o3 argv3 lu v st3).st.rlimitNproc = st3.rlimitNproc := by
  refine ⟨?_, ?_, ?_⟩
  · simp only [sudoers_check_cmnd]
    split_ifs <;>
      first
        | rfl
        | (rw [checkCmndDone_rlimitNproc]
           show restore_nproc o1.rlim _
             (if o1.rlim.getrlimitOk then st1.rlimitNproc
              else st1.nproclimit) = st1.rlimitNproc
           rw [if_pos hg1, restore_nproc_saved o1.rlim _ _ hs1])
  · simp only [sudoers_validate_user]
    split_ifs <;>
      (rw [validateListDone_rlimitNproc]
       show restore_nproc o2.rlim _
         (if o2.rlim.getrlimitOk then st2.rlimitNproc
          else st2.nproclimit) = st2.rlimitNproc
       rw [if_pos hg2, restore_nproc_saved o2.rlim _ _ hs2])
  · simp only [sudoers_list]
    split_ifs <;>
      (rw [validateListDone_rlimitNproc]
       show restore_nproc o3.rlim _
         (if o3.rlim.getrlimitOk then st3.rlimitNproc
          else st3.nproclimit) = st3.rlimitNproc
       rw [if_pos hg3, restore_nproc_saved o3.rlim _ _ hs3])

/-- A validate-entry-point oracle whose externals all succeed. -/
def stockValidateOracle : ValidateOracle :=
  { co := stockCommon, rlim := stockRlim, setPermsInitialOk := true,
    rewindPermsOk := true }

/-- A list-entry-point oracle whose externals all succeed. -/
def stockListOracle : ListOracle :=
  { co := stockCommon, rlim := stockRlim, setPermsInitialOk := true,
    rewindPermsOk := true, listUserPw := fun _ => some alicePw,
    displayResult := fun _ => CheckResult.allow }

/-- Witness: the three entry points on stock inputs leave RLIMIT_NPROC at
its entry value. -/
theorem nproc_restored_on_every_exit_witness :
    (sudoers_check_cmnd stockCmndOracle ["/bin/ls"] [] stockState).st.rlimitNproc =
      stockState.rlimitNproc ∧
    (sudoers_validate_user stockValidateOracle stockState).st.rlimitNproc =
      stockState.rlimitNproc ∧
    (sudoers_list stockListOracle ["/bin/ls"] none false
      stockState).st.rlimitNproc = stockState.rlimitNproc :=
  nproc_restored_on_every_exit stockCmndOracle ["/bin/ls"] [] stockState
    stockValidateOracle stockState stockListOracle ["/bin/ls"] none false
    stockState (by decide) (by decide) (by decide) (by decide) (by decide)
    (by decide)

theorem or_mask_511 (uu : Nat) (h : uu < 512) : 511 ||| uu = 511 := by
  apply Nat.eq_of_testBit_eq
  intro i
  rw [Nat.testBit_or]
  by_cases hi : i < 9
  · have h511 : Nat.testBit 511 i = true := by
      interval_cases i <;> decide
    simp [h511]
  · have h2 : (512 : Nat) ≤ 2 ^ i := by
      calc (512 : Nat) = 2 ^ 9 := by norm_num
      _ ≤ 2 ^ i := Nat.pow_le_pow_right (by norm_num) (by omega)
    have hu : Nat.testBit uu i = false :=
      Nat.testBit_eq_false_of_lt (lt_of_lt_of_le h h2)
    have h511 : Nat.testBit 511 i = false :=
      Nat.testBit_eq_false_of_lt (lt_of_lt_of_le (by norm_num) h2)
    simp [hu, h511]

theorem cmndUmaskCalc_spec (d : Defaults) (uu : Nat) (h : uu < 512) :
    cmndUmaskCalc d uu =
      (if d.umask_override = true then d.umask else d.umask ||| uu) := by
  unfold cmndUmaskCalc accessPerms
  by_cases ho : d.umask_override = true <;> by_cases hd : d.umask = 511 <;>
    simp [ho, hd, or_mask_511 uu h]

theorem checkCmndDone_cmndUmask (o : CmndOracle) (r : CheckResult)
    (e : List Event) (s : ProcState) (u : Nat) :
    (checkCmndDone o r e s u).cmndUmask = u := rfl

theorem checkCmndDone_st_ctx (o : CmndOracle) (r : CheckResult)
    (e : List Event) (s : ProcState) (u : Nat) :
    (checkCmndDone o r e s u).st.ctx = s.ctx := rfl

theorem checkCmndDone_ret_allow (o : CmndOracle) (r : CheckResult)
    (e : List Event) (s : ProcState) (u : Nat)
    (h : (checkCmndDone o r e s u).ret = CheckResult.allow) :
    r = CheckResult.allow := by
  simp only [checkCmndDone] at h
  split_ifs at h <;> first | exact h | nomatch h

theorem checkCmndAllowTail_umask (o : CmndOracle) (na : List String)
    (cc : Ctx) (sas : Bool) (ev : List Event)
    (h : (checkCmndAllowTail o na cc sas ev).ret = CheckResult.allow) :
    (checkCmndAllowTail o na cc sas ev).cmndUmask =
      cmndUmaskCalc (checkCmndAllowTail o na cc sas ev).ctx.d
        (checkCmndAllowTail o na cc sas ev).ctx.u.umask := by
  simp only [checkCmndAllowTail] at h ⊢
  split_ifs at h ⊢ <;>
    first
      | rfl
      | exact absurd h (by decide)
      | (rcases hfe : o.findEditor with _ | e <;> rw [hfe] at h <;>
         first | exact absurd h (by decide) | rfl)

theorem checkCmndBody_umask (o : CmndOracle) (argv envAdd nap : List String)
    (c : Ctx) (sas : Bool)
    (h : (checkCmndBody o argv envAdd nap c sas).ret = CheckResult.allow) :
    (checkCmndBody o argv envAdd nap c sas).cmndUmask =
      cmndUmaskCalc (checkCmndBody o argv envAdd nap c sas).ctx.d
        (checkCmndBody o argv envAdd nap c sas).ctx.u.umask := by
  simp only [checkCmndBody] at h ⊢
  split_ifs at h ⊢ <;>
    first
      | exact absurd h (by decide)
      | exact checkCmndAllowTail_umask _ _ _ _ _ h
      | exact absurd h (by assumption)

/-- C7: for every allowed command, the umask handed back to the front-end
equals def_umask bitwise-or the invoking user's umask, except that with
umask_override set it is def_umask alone; quantified over all defaults
stores, user umask values (umasks are nine-bit masks) and the override
flag. -/
theorem umask_handed_back (o : CmndOracle) (argv envAdd : List String)
    (st : ProcState)
    (hum : (sudoers_check_cmnd o argv envAdd st).st.ctx.u.umask < 512)
    (hal : (sudoers_check_cmnd o argv envAdd st).ret = CheckResult.allow) :
    (sudoers_check_cmnd o argv envAdd st).cmndUmask =
      (if (sudoers_check_cmnd o argv envAdd st).st.ctx.d.umask_override =
          true then
        (sudoers_check_cmnd o argv envAdd st).st.ctx.d.umask
       else
        (sudoers_check_cmnd o argv envAdd st).st.ctx.d.umask |||
          (sudoers_check_cmnd o argv envAdd st).st.ctx.u.umask) := by
  simp only [sudoers_check_cmnd] at hum hal ⊢
  split_ifs at hum hal ⊢ <;>
    first
      | exact absurd hal (by decide)
      | (have hb := checkCmndDone_ret_allow _ _ _ _ _ hal
         have hu := checkCmndBody_umask _ _ _ _ _ _ hb
         simp only [checkCmndDone_cmndUmask, checkCmndDone_st_ctx] at hum ⊢
         rw [hu, cmndUmaskCalc_spec _ _ (by exact hum)]
         split_ifs <;> first | rfl | contradiction)

/-- Witness: the stock allowed run hands back 0o022 with override off,
matching def_umask OR user umask. -/
theorem umask_handed_back_witness :
    (sudoers_check_cmnd stockCmndOracle ["/bin/ls"] [] stockState).cmndUmask =
      (if (sudoers_check_cmnd stockCmndOracle ["/bin/ls"] []
            stockState).st.ctx.d.umask_override = true then
        (sudoers_check_cmnd stockCmndOracle ["/bin/ls"] []
          stockState).st.ctx.d.umask
       else
        (sudoers_check_cmnd stockCmndOracle ["/bin/ls"] []
            stockState).st.ctx.d.umask |||
          (sudoers_check_cmnd stockCmndOracle ["/bin/ls"] []
            stockState).st.ctx.u.umask) :=
  umask_handed_back stockCmndOracle ["/bin/ls"] [] stockState (by decide)
    (by decide)

theorem checkCmndDone_st_newArgv (o : CmndOracle) (r : CheckResult)
    (e : List Event) (s : ProcState) (u : Nat) :
    (checkCmndDone o r e s u).st.newArgv = s.newArgv := rfl

theorem checkCmndAllowTail_ctx_mode (o : CmndOracle) (na : List String)
    (cc : Ctx) (sas : Bool) (ev : List Event) :
    (checkCmndAllowTail o na cc sas ev).ctx.mode = cc.mode := by
  simp only [checkCmndAllowTail]
  split_ifs <;>
    first
      | rfl
      | (rcases o.findEditor with _ | e <;> rfl)

theorem checkCmndAllowTail_newArgv (o : CmndOracle) (na : List String)
    (cc : Ctx) (sas : Bool) (ev : List Event)
    (h : (checkCmndAllowTail o na cc sas ev).ret = CheckResult.allow)
    (hedit : cc.mode.edit = false) :
    (checkCmndAllowTail o na cc sas ev).newArgv =
      (if cc.mode.loginShell = true then reshapeLoginArgv na else na) := by
  simp only [checkCmndAllowTail] at h ⊢
  split_ifs at h ⊢ <;>
    first
      | rfl
      | exact absurd h (by decide)
      | exact absurd ‹cc.mode.edit = true› (by simp [hedit])

theorem reshapeLoginArgv_cons (a0 : String) (rest : List String) :
    reshapeLoginArgv (a0 :: rest) =
      (if dashShell a0 = "-bash" ∧ rest.head? = some "-c" then
        dashShell a0 :: "--login" :: rest
       else dashShell a0 :: rest) := by
  cases rest with
  | nil => simp [reshapeLoginArgv]
  | cons r1 rest2 =>
    simp only [reshapeLoginArgv, List.head?]
    split_ifs <;> simp_all

theorem checkCmndBody_newArgv (o : CmndOracle)
    (argv envAdd nap : List String) (c : Ctx) (sas : Bool)
    (hlogin : c.mode.loginShell = true)
    (h : (checkCmndBody o argv envAdd nap c sas).ret = CheckResult.allow)
    (hedit : (checkCmndBody o argv envAdd nap c sas).ctx.mode.edit = false)
    (hls : (checkCmndBody o argv envAdd nap c
      sas).ctx.mode.loginShell = true) :
    (checkCmndBody o argv envAdd nap c sas).newArgv =
      reshapeLoginArgv (c.runas.pw.shell :: argv.drop 1) := by
  simp only [checkCmndBody] at h hedit hls ⊢
  split_ifs at h hedit hls ⊢ <;>
    first
      | exact absurd h (by decide)
      | exact absurd h (by assumption)
      | exact absurd hlogin (by assumption)
      | (rw [checkCmndAllowTail_ctx_mode] at hedit hls
         rw [checkCmndAllowTail_newArgv _ _ _ _ _ h hedit, if_pos hls])

/-- A login-shell request whose runas shell is the slashless string bash. -/
def slashlessShellCtx : Ctx :=
  { stockCtx with
    mode := { runMode with loginShell := true },
    runas := { stockRunas with pw := { rootPw with shell := "bash" } } }

/-- The process state for the slashless-shell run. -/
def slashlessShellState : ProcState :=
  { stockState with ctx := slashlessShellCtx }

/-- C6 counterexample: an allowed login-shell request whose target shell is
the slashless string bash ends with argv [-ash]: the dash overwrites the
first character (sudoers.c lines 711-714 write the dash over the character
at the last slash, or over the first character when there is none), so
argv[0] is NOT the basename of the shell prefixed with a dash, which would
be -bash. -/
theorem login_shell_dash_basename_counterexample :
    (sudoers_check_cmnd stockCmndOracle ["bash"] []
      slashlessShellState).ret = CheckResult.allow ∧
    (sudoers_check_cmnd stockCmndOracle ["bash"] []
      slashlessShellState).st.newArgv = ["-ash"] ∧
    (sudoers_check_cmnd stockCmndOracle ["bash"] []
        slashlessShellState).st.newArgv.head? ≠
      some ("-" ++ sudoBasename "bash") := by
  decide

/-- C6 (amended): for every allowed login-shell request that did not turn
into an edit request, the final argv is the original argument vector with
argv[0] replaced by the dash rewrite of the target shell (the character at
the last slash replaced by a dash and everything before it dropped, which
is dash-plus-basename whenever the shell contains a slash; with no slash
the first character is overwritten), and with --login inserted using the
spare slot exactly when the rewritten argv[0] is -bash directly followed
by -c. -/
theorem login_shell_argv_shaping (o : CmndOracle) (argv envAdd : List String)
    (st : ProcState)
    (hargv : argv ≠ [])
    (hre : st.needReinit = false)
    (hlogin : st.ctx.mode.loginShell = true)
    (hal : (sudoers_check_cmnd o argv envAdd st).ret = CheckResult.allow)
    (hedit : (sudoers_check_cmnd o argv envAdd st).st.ctx.mode.edit = false)
    (houtls : (sudoers_check_cmnd o argv envAdd
      st).st.ctx.mode.loginShell = true) :
    (sudoers_check_cmnd o argv envAdd st).st.newArgv =
      (if dashShell st.ctx.runas.pw.shell = "-bash" ∧
          (argv.drop 1).head? = some "-c" then
        dashShell st.ctx.runas.pw.shell :: "--login" :: argv.drop 1
       else dashShell st.ctx.runas.pw.shell :: argv.drop 1) := by
  simp only [sudoers_check_cmnd, hre, Bool.false_eq_true, false_and,
    if_false] at hal hedit houtls ⊢
  rw [if_neg hargv] at hal hedit houtls ⊢
  have hb := checkCmndDone_ret_allow _ _ _ _ _ hal
  simp only [checkCmndDone_st_newArgv, checkCmndDone_st_ctx] at hedit houtls ⊢
  rw [checkCmndBody_newArgv _ _ _ _ _ _ hlogin hb hedit houtls,
    reshapeLoginArgv_cons]

/-- A login-shell request whose runas shell is /bin/bash. -/
def loginShellState : ProcState :=
  { stockState with
    ctx := { stockCtx with mode := { runMode with loginShell := true } } }

/-- Witness: an allowed -i run of bash -c echo hi as root (shell
/bin/bash) ends with argv [-bash, --login, -c, echo hi]: the dash rewrite
is -bash and the spare slot inserts --login before the -c. -/
theorem login_shell_argv_shaping_witness :
    ["bash", "-c", "echo hi"] ≠ ([] : List String) ∧
    loginShellState.needReinit = false ∧
    loginShellState.ctx.mode.loginShell = true ∧
    (sudoers_check_cmnd stockCmndOracle ["bash", "-c", "echo hi"] []
      loginShellState).ret = CheckResult.allow ∧
    (sudoers_check_cmnd stockCmndOracle ["bash", "-c", "echo hi"] []
      loginShellState).st.ctx.mode.edit = false ∧
    (sudoers_check_cmnd stockCmndOracle ["bash", "-c", "echo hi"] []
      loginShellState).st.ctx.mode.loginShell = true ∧
    (sudoers_check_cmnd stockCmndOracle ["bash", "-c", "echo hi"] []
        loginShellState).st.newArgv =
      ["-bash", "--login", "-c", "echo hi"] := by
  refine ⟨by decide, by decide, by decide, by decide, by decide, by decide,
    ?_⟩
  have h := login_shell_argv_shaping stockCmndOracle
    ["bash", "-c", "echo hi"] [] loginShellState (by decide) (by decide)
    (by decide) (by decide) (by decide) (by decide)
  rw [h]
  decide

end Sudoers
